import Mathlib

/-!
# FinanceFlow AI — verification of the extraction-to-deployment pipeline

Shallow embedding of the core of the `Financeflow_ai` repository
(`backend/app/`): the schema designer, the Snowflake deployer, the
metric-extraction orchestrator's deploy node, the JSON-extraction helpers,
and the analysis agent's throttle/retry logic.  External services
(document AI, LLM, warehouse) are modelled as explicit oracle parameters;
the warehouse is modelled as the set of existing tables plus the rows of
the `EXTRACTED_METRICS` table.
-/

namespace FinanceFlow

/-! ## Data model (`backend/app/models.py`) -/

/-- `TableColumn` from `models.py`: a column of a warehouse table. -/
structure TableColumn where
  name : String
  type : String
  constraints : String := ""
deriving DecidableEq, Repr

/-- `TableSchema` from `models.py`. -/
structure TableSchema where
  table_name : String
  columns : List TableColumn
  indexes : List String := []
deriving DecidableEq, Repr

/-- `DatabaseSchema` from `models.py`.  The presentation-only fields
(`relationships`, `validation_rules`, `clustering_recommendations`) are
carried as opaque string data since no claim inspects their contents. -/
structure DatabaseSchema where
  tables : List TableSchema
  relationships : List (String × String) := []
  validation_rules : List String := []
  ddl_sql : String := ""
deriving DecidableEq, Repr

/-- `DeploymentResult` from `models.py`. -/
structure DeploymentResult where
  tables_created : Nat
  rows_loaded : Nat
  database : String
  schema : String
  status : String
deriving DecidableEq, Repr

/-- A metric definition dict as used by the orchestrator and schema
designer: `{name, type, description}` (`MetricDefinition` in
`models.py`; the agents access it with `.get('name','')` etc.). -/
structure Metric where
  name : String
  type : String
  description : String := ""
deriving DecidableEq, Repr

/-- Default Snowflake target from `config.py` (`snowflake_database`). -/
def snowflakeDatabase : String := "FINANCIAL_DATA"

/-- Default Snowflake target from `config.py` (`snowflake_schema`). -/
def snowflakeSchema : String := "PUBLIC"

/-! ## SchemaDesigner (`backend/app/agents/schema_designer.py`) -/

/-- The `type_mapping` dict in `SchemaDesigner._create_metrics_schema`
with its `.get(metric_type, 'VARCHAR(500)')` default. -/
def snowflakeTypeOf (t : String) : String :=
  if t = "str" then "VARCHAR(500)"
  else if t = "int" then "NUMBER"
  else if t = "float" then "NUMBER(18,2)"
  else if t = "bool" then "BOOLEAN"
  else "VARCHAR(500)"

/-- Python `str.upper()` (ASCII case mapping, which covers every name
appearing here). -/
def pyUpper (s : String) : String :=
  String.mk (s.toList.map Char.toUpper)

/-- Python `str.lower()`. -/
def pyLower (s : String) : String :=
  String.mk (s.toList.map Char.toLower)

/-- One metric column appended by `_create_metrics_schema`:
name upper-cased, type from the closed mapping, no constraints. -/
def metricColumn (m : Metric) : TableColumn :=
  { name := pyUpper m.name, type := snowflakeTypeOf m.type, constraints := "" }

/-- The fixed leading columns of the `EXTRACTED_METRICS` table built by
`_create_metrics_schema`. -/
def metricsLeadColumns : List TableColumn :=
  [ { name := "METRIC_ID", type := "NUMBER", constraints := "PRIMARY KEY IDENTITY(1,1)" },
    { name := "DOCUMENT_NAME", type := "VARCHAR(255)", constraints := "NOT NULL" },
    { name := "EXTRACTION_DATE", type := "TIMESTAMP", constraints := "DEFAULT CURRENT_TIMESTAMP()" } ]

/-- Column rendering in the DDL generation of `_create_metrics_schema`:
`"  {name} {type}"` plus `" {constraints}"` when constraints is nonempty. -/
def columnDef (c : TableColumn) : String :=
  let base := "  " ++ c.name ++ " " ++ c.type
  if c.constraints ≠ "" then base ++ " " ++ c.constraints else base

/-- DDL of one table as generated by `_create_metrics_schema`. -/
def tableDDL (t : TableSchema) : String :=
  "CREATE TABLE IF NOT EXISTS " ++ t.table_name ++ " (\n" ++
    String.intercalate ",\n" (t.columns.map columnDef) ++ "\n);"

/-- `SchemaDesigner._create_metrics_schema(extracted_metrics, metrics)`.
The `extracted_metrics` argument is accepted and ignored, exactly as in
the source (the body never reads it). -/
def create_metrics_schema {α : Type} (_extracted_metrics : List (String × α))
    (metrics : List Metric) : DatabaseSchema :=
  let metricsTable : TableSchema :=
    { table_name := "EXTRACTED_METRICS",
      columns := metricsLeadColumns ++ metrics.map metricColumn,
      indexes := ["DOCUMENT_NAME", "EXTRACTION_DATE"] }
  { tables := [metricsTable],
    relationships := [],
    validation_rules := [],
    ddl_sql := tableDDL metricsTable }

/-- The constant star schema of `SchemaDesigner._create_star_schema`
(only the table names and columns matter to any claim; the DDL text is
generated by the same `tableDDL` rendering). -/
def starSchemaTables : List TableSchema :=
  [ { table_name := "DIM_TIME_PERIOD",
      columns :=
        [ { name := "PERIOD_ID", type := "NUMBER", constraints := "PRIMARY KEY IDENTITY(1,1)" },
          { name := "FISCAL_YEAR", type := "NUMBER", constraints := "NOT NULL" },
          { name := "FISCAL_QUARTER", type := "NUMBER", constraints := "" },
          { name := "PERIOD_NAME", type := "VARCHAR(50)", constraints := "NOT NULL" },
          { name := "PERIOD_TYPE", type := "VARCHAR(20)", constraints := "" },
          { name := "CREATED_AT", type := "TIMESTAMP", constraints := "DEFAULT CURRENT_TIMESTAMP()" } ],
      indexes := ["FISCAL_YEAR", "FISCAL_QUARTER"] },
    { table_name := "DIM_ACCOUNT",
      columns :=
        [ { name := "ACCOUNT_ID", type := "NUMBER", constraints := "PRIMARY KEY IDENTITY(1,1)" },
          { name := "ACCOUNT_NAME", type := "VARCHAR(200)", constraints := "NOT NULL" },
          { name := "ACCOUNT_TYPE", type := "VARCHAR(50)", constraints := "NOT NULL" },
          { name := "DOCUMENT_TYPE", type := "VARCHAR(50)", constraints := "" },
          { name := "PARENT_ACCOUNT", type := "VARCHAR(200)", constraints := "" },
          { name := "CREATED_AT", type := "TIMESTAMP", constraints := "DEFAULT CURRENT_TIMESTAMP()" } ],
      indexes := ["ACCOUNT_TYPE", "DOCUMENT_TYPE"] },
    { table_name := "DIM_DOCUMENT",
      columns :=
        [ { name := "DOCUMENT_ID", type := "NUMBER", constraints := "PRIMARY KEY IDENTITY(1,1)" },
          { name := "FILE_NAME", type := "VARCHAR(255)", constraints := "NOT NULL" },
          { name := "DOCUMENT_TYPE", type := "VARCHAR(50)", constraints := "" },
          { name := "UPLOAD_DATE", type := "TIMESTAMP", constraints := "DEFAULT CURRENT_TIMESTAMP()" },
          { name := "PROCESSING_STATUS", type := "VARCHAR(20)", constraints := "" } ],
      indexes := ["DOCUMENT_TYPE", "UPLOAD_DATE"] },
    { table_name := "FACT_FINANCIAL_DATA",
      columns :=
        [ { name := "FACT_ID", type := "NUMBER", constraints := "PRIMARY KEY IDENTITY(1,1)" },
          { name := "PERIOD_ID", type := "NUMBER", constraints := "NOT NULL" },
          { name := "ACCOUNT_ID", type := "NUMBER", constraints := "NOT NULL" },
          { name := "DOCUMENT_ID", type := "NUMBER", constraints := "" },
          { name := "AMOUNT", type := "NUMBER(18,2)", constraints := "NOT NULL" },
          { name := "CONFIDENCE_SCORE", type := "NUMBER(5,4)", constraints := "" },
          { name := "DATA_TYPE", type := "VARCHAR(50)", constraints := "" },
          { name := "CURRENCY", type := "VARCHAR(10)", constraints := "DEFAULT 'USD'" },
          { name := "CREATED_AT", type := "TIMESTAMP", constraints := "DEFAULT CURRENT_TIMESTAMP()" },
          { name := "UPDATED_AT", type := "TIMESTAMP", constraints := "DEFAULT CURRENT_TIMESTAMP()" } ],
      indexes := ["PERIOD_ID", "ACCOUNT_ID", "DOCUMENT_ID"] } ]

/-- `SchemaDesigner._create_default_schema`, which is
`_create_star_schema([], dummy_analysis)`: the fixed star schema. -/
def create_default_schema : DatabaseSchema :=
  { tables := starSchemaTables,
    relationships :=
      [ ("FACT_FINANCIAL_DATA.PERIOD_ID", "DIM_TIME_PERIOD.PERIOD_ID"),
        ("FACT_FINANCIAL_DATA.ACCOUNT_ID", "DIM_ACCOUNT.ACCOUNT_ID"),
        ("FACT_FINANCIAL_DATA.DOCUMENT_ID", "DIM_DOCUMENT.DOCUMENT_ID") ],
    validation_rules :=
      [ "AMOUNT IS NOT NULL", "CONFIDENCE_SCORE BETWEEN 0 AND 1",
        "PERIOD_ID > 0", "ACCOUNT_ID > 0" ],
    ddl_sql := String.intercalate "\n\n" (starSchemaTables.map tableDDL) }

/-- `SchemaDesigner.design_schema` as invoked on the metric pipeline
(`extraction_results` and `analysis` are `None` there): `if metrics:`
build the metrics schema, otherwise fall through to the default star
schema. -/
def design_schema {α : Type} (extracted_metrics : List (String × α))
    (metrics : List Metric) : DatabaseSchema :=
  if metrics.isEmpty then create_default_schema
  else create_metrics_schema extracted_metrics metrics

/-! ## SnowflakeDeployer (`backend/app/agents/snowflake_deployer.py`)

The warehouse (`WarehouseExecute`) is modelled as the list of existing
tables together with the rows of the `EXTRACTED_METRICS` table, the only
table the deployer ever inserts into.  The DDL issued by
`create_schema_if_not_exists` is one `CREATE TABLE IF NOT EXISTS` per
table of the schema (that is literally what the schema designer
generates), so executing it adds exactly the absent tables and never
errors.  A row is the `DOCUMENT_NAME` value followed by one optional
(`NULL`-able) value per metric column.  Whether a given row insert
succeeds at the warehouse is an oracle `Bool`; on failure the source
catches the exception and returns `0`. -/

/-- A row of the `EXTRACTED_METRICS` table: the `DOCUMENT_NAME` value and
one optional value per metric column, `none` standing for SQL `NULL`. -/
def MetricsRow (α : Type) : Type := String × List (Option α)

/-- Warehouse state: existing tables and the committed rows of
`EXTRACTED_METRICS`. -/
structure Warehouse (α : Type) where
  tables : List TableSchema
  rows : List (MetricsRow α)

/-- Does a table of the given name exist in the warehouse?  This is the
`IF NOT EXISTS` guard condition. -/
def nameMem (ws : List TableSchema) (n : String) : Bool :=
  ws.any (fun u => u.table_name == n)

/-- Effect of one `CREATE TABLE IF NOT EXISTS` statement: add the table
unless a table of that name already exists; never an error. -/
def createTableIfNotExists (ws : List TableSchema) (t : TableSchema) : List TableSchema :=
  if ws.any (fun u => u.table_name == t.table_name) then ws else ws ++ [t]

/-- `SnowflakeDeployer.create_schema_if_not_exists(schema)`: guarded DDL
for every table, then a `DeploymentResult` with
`tables_created = len(schema.tables)` (the source counts the schema's
tables, not the tables actually added), `rows_loaded = 0` and status
`schema_created`. -/
def create_schema_if_not_exists {α : Type} (w : Warehouse α)
    (schema : DatabaseSchema) : Warehouse α × DeploymentResult :=
  ({ w with tables := schema.tables.foldl createTableIfNotExists w.tables },
   { tables_created := schema.tables.length,
     rows_loaded := 0,
     database := snowflakeDatabase,
     schema := snowflakeSchema,
     status := "schema_created" })

/-- Python `dict.get` on the extracted-values map (first binding wins,
as dict keys are unique): `extracted_metrics.get(key)`. -/
def lookupValue {α : Type} (extracted : List (String × α)) (key : String) : Option α :=
  (extracted.find? (fun kv => kv.1 == key)).map Prod.snd

/-- The column list of the parameterized insert built by
`SnowflakeDeployer.insert_metrics_row`:
`["DOCUMENT_NAME"] + [m.get('name','').upper() for m in metrics]`. -/
def insertColumns (metrics : List Metric) : List String :=
  "DOCUMENT_NAME" :: metrics.map (fun m => pyUpper m.name)

/-- The parameter row built by `insert_metrics_row`:
`document_name or "unknown"` followed, for each metric, by
`extracted_metrics.get(metric.get('name','').lower())` (`None` → NULL). -/
def insertRowParams {α : Type} (extracted : List (String × α))
    (metrics : List Metric) (document_name : Option String) : MetricsRow α :=
  (document_name.getD "unknown",
   metrics.map (fun m => lookupValue extracted (pyLower m.name)))

/-- `SnowflakeDeployer.insert_metrics_row(extracted_metrics, metrics,
document_name)`: commits the single built row and returns `1`; any
failure (oracle `ok = false`) is caught inside the method, leaves the
warehouse unchanged and returns `0`. -/
def insert_metrics_row {α : Type} (ok : Bool) (w : Warehouse α)
    (extracted : List (String × α)) (metrics : List Metric)
    (document_name : Option String) : Warehouse α × Nat :=
  if ok then
    ({ w with rows := w.rows ++ [insertRowParams extracted metrics document_name] }, 1)
  else (w, 0)

/-! ## MetricExtractionPipeline.deploy_metrics_node
(`backend/app/agents/orchestrator.py`)

The external extraction service
(`DocumentExtractor.extract_metrics_from_markdown`) is modelled as a
deterministic oracle from a markdown path to its returned dict: the
`"error"` key's presence and the `"extraction"` map.  Whether the
warehouse accepts a given document's row insert is a second oracle. -/

/-- The dict returned by `extract_metrics_from_markdown`: `hasError`
models the presence of the `"error"` key, `extraction` the
`"extraction"` map (empty on failure). -/
structure ExtractResult (α : Type) where
  hasError : Bool
  extraction : List (String × α)

/-- `(md_path.split('/')[-1]).split('.')[0]` in `deploy_metrics_node`. -/
def docNameOf (p : String) : String :=
  (((p.splitOn "/").getLastD "").splitOn ".").headD ""

/-- The per-document gate of both steps of `deploy_metrics_node`:
`"error" not in data and data.get("extraction")` (a document passes when
its extraction reported no error and a nonempty map). -/
def extractionOk {α : Type} (extract : String → ExtractResult α) (p : String) : Bool :=
  !(extract p).hasError && !(extract p).extraction.isEmpty

/-- The row committed for a document that passes the gate and whose
insert succeeds (the parameter row of `insert_metrics_row`). -/
def rowOf {α : Type} (extract : String → ExtractResult α) (metrics : List Metric)
    (p : String) : MetricsRow α :=
  insertRowParams (extract p).extraction metrics (some (docNameOf p))

/-- One iteration of the Step-2 loop of `deploy_metrics_node`: skip the
document when its extraction failed or was empty, otherwise record its
extraction for the frontend and insert its row, accumulating
`total_rows_loaded`. -/
def processDoc {α : Type} (extract : String → ExtractResult α)
    (insertOk : String → Bool) (metrics : List Metric)
    (acc : Warehouse α × Nat × List (String × List (String × α)))
    (p : String) : Warehouse α × Nat × List (String × List (String × α)) :=
  let (w, total, byDoc) := acc
  let data := extract p
  if data.hasError || data.extraction.isEmpty then acc
  else
    let (w2, rows) :=
      insert_metrics_row (insertOk p) w data.extraction metrics (some (docNameOf p))
    (w2, total + rows, byDoc ++ [(docNameOf p, data.extraction)])

/-- The value returned by `deploy_metrics_node` (plus the warehouse state
it leaves behind): the final `DeploymentResult` (or `None`), and the
per-document extracted metrics map. -/
structure DeployOutcome (α : Type) where
  warehouse : Warehouse α
  deployment_result : Option DeploymentResult
  extracted_by_doc : List (String × List (String × α))

/-- `MetricExtractionPipeline.deploy_metrics_node`.  Step 1: if there are
documents, extract the first one; if that extraction errored or came back
empty, return immediately with `deployment_result = None` and nothing
extracted.  Otherwise design the schema from the selected metrics and
create it once.  Step 2: loop over every document, skipping the ones
whose extraction fails and inserting one row per surviving document.
Finally, when a schema deployment happened, its result's `rows_loaded`
is overwritten with the total and its status set to `"success"`. -/
def deploy_metrics_node {α : Type} (extract : String → ExtractResult α)
    (insertOk : String → Bool) (w : Warehouse α)
    (markdown_paths : List String) (selected_metrics : List Metric) :
    DeployOutcome α :=
  match markdown_paths with
  | [] =>
    { warehouse := w, deployment_result := none, extracted_by_doc := [] }
  | p0 :: _ =>
    let firstData := extract p0
    if firstData.hasError || firstData.extraction.isEmpty then
      { warehouse := w, deployment_result := none, extracted_by_doc := [] }
    else
      let schemaResult := design_schema firstData.extraction selected_metrics
      let (w1, schemaDeployment) := create_schema_if_not_exists w schemaResult
      let (w2, total, byDoc) :=
        markdown_paths.foldl (processDoc extract insertOk selected_metrics) (w1, 0, [])
      { warehouse := w2,
        deployment_result :=
          some { schemaDeployment with rows_loaded := total, status := "success" },
        extracted_by_doc := byDoc }

/-! ## JSON extraction (`FinancialAnalyzer._extract_json` in
`backend/app/agents/analyzer.py` and
`DocumentExtractor._parse_json_response` in
`backend/app/agents/extractor.py`)

Python string primitives (`strip`, `find`, slicing) are embedded with
their exact semantics, including `find` returning `-1` on a miss and
negative indices in slices.  `json.loads` is embedded as a
recursive-descent JSON parser over objects, arrays, strings, integers,
booleans and null (number support is integral: no claim evaluates a
non-integral literal); `none` models a raised `JSONDecodeError`
(FormatError). -/

/-- Python `str.strip` whitespace class, as relevant here. -/
def isWsChar (c : Char) : Bool :=
  c = ' ' || c = '\n' || c = '\t' || c = '\r'

/-- `str.strip()` on the underlying character list. -/
def stripChars (cs : List Char) : List Char :=
  ((cs.dropWhile isWsChar).reverse.dropWhile isWsChar).reverse

/-- Python `text.strip()`. -/
def pyStrip (s : String) : String :=
  String.mk (stripChars s.toList)

/-- Index (relative to the suffix searched) of the first occurrence of
`pat`, if any. -/
def findSubAux (pat : List Char) : List Char → Nat → Option Nat
  | [], i => if pat = [] then some i else none
  | c :: rest, i =>
    if pat.isPrefixOf (c :: rest) then some i else findSubAux pat rest (i + 1)

/-- Python `s.find(pat, start)`: absolute index of the first occurrence
at or after `start`, `-1` when absent. -/
def pyFind (s pat : String) (start : Nat) : Int :=
  match findSubAux pat.toList (s.toList.drop start) 0 with
  | some i => ((start + i : Nat) : Int)
  | none => -1

/-- Python `pat in s`. -/
def hasSub (s pat : String) : Bool :=
  pyFind s pat 0 != -1

/-- Normalization of one Python slice bound under length `len`. -/
def pySliceIdx (len : Nat) (i : Int) : Nat :=
  if i < 0 then ((len : Int) + i).toNat else min i.toNat len

/-- Python `s[a:b]`, including negative bounds. -/
def pySlice (s : String) (a b : Int) : String :=
  let cs := s.toList
  String.mk ((cs.take (pySliceIdx cs.length b)).drop (pySliceIdx cs.length a))

/-- The shared fence-stripping step of `_extract_json` and
`_parse_json_response`: slice between the first fence marker and the
next fence close (Python's `find` returning `-1` when there is no close
is kept as is, which slices up to the last character). -/
def stripCodeFences (t : String) : String :=
  if hasSub t "```json" then
    let start := pyFind t "```json" 0 + 7
    pySlice t start (pyFind t "```" start.toNat)
  else if hasSub t "```" then
    let start := pyFind t "```" 0 + 3
    pySlice t start (pyFind t "```" start.toNat)
  else t

/-- The brace-matching loop of `_extract_json`: walking the text once,
`brace_count` up on `{` and down on `}`, truncating after the `}` that
returns the count to zero; if the count never returns to zero the text
is left unchanged. -/
def braceCutAux : List Char → Int → List Char → Option (List Char)
  | [], _, _ => none
  | c :: rest, depth, acc =>
    if c = '{' then braceCutAux rest (depth + 1) (acc ++ [c])
    else if c = '}' then
      if depth - 1 = 0 then some (acc ++ [c])
      else braceCutAux rest (depth - 1) (acc ++ [c])
    else braceCutAux rest depth (acc ++ [c])

/-- `text[:i+1]` at the balanced closing brace, when one exists. -/
def braceTruncate (t : String) : String :=
  match braceCutAux t.toList 0 [] with
  | some cs => String.mk cs
  | none => t

/-- Python `text.startswith(c)` for a single-character marker. -/
def startsWithChar (s : String) (c : Char) : Bool :=
  match s.toList with
  | [] => false
  | c0 :: _ => c0 = c

/-- JSON values as produced by `json.loads` (numbers restricted to
integers; no claim evaluates a non-integral literal). -/
inductive Json where
  | null
  | bool (b : Bool)
  | num (n : Int)
  | str (s : String)
  | arr (elems : List Json)
  | obj (fields : List (String × Json))

/-- JSON string literal body: characters after the opening quote, with
the usual escapes, up to the closing quote. -/
def parseStringAux : List Char → List Char → Option (String × List Char)
  | [], _ => none
  | '"' :: rest, acc => some (String.mk acc.reverse, rest)
  | '\\' :: e :: rest, acc =>
    let ec := if e = 'n' then '\n' else if e = 't' then '\t' else if e = 'r' then '\r' else e
    parseStringAux rest (ec :: acc)
  | c :: rest, acc => parseStringAux rest (c :: acc)

/-- Value of a digit run. -/
def digitsVal (ds : List Char) : Nat :=
  ds.foldl (fun a c => a * 10 + (c.toNat - 48)) 0

/-- A JSON integer literal: optional minus, one or more digits. -/
def parseNumber (cs : List Char) : Option (Int × List Char) :=
  let (neg, cs1) := match cs with
    | '-' :: rest => (true, rest)
    | _ => (false, cs)
  let ds := cs1.takeWhile Char.isDigit
  if ds.isEmpty then none
  else
    let n : Int := digitsVal ds
    some (if neg then -n else n, cs1.dropWhile Char.isDigit)

/-- Leading JSON whitespace. -/
def skipWs (cs : List Char) : List Char :=
  cs.dropWhile isWsChar

mutual

/-- One JSON value, by recursive descent (fuelled). -/
def parseValue : Nat → List Char → Option (Json × List Char)
  | 0, _ => none
  | fuel + 1, cs =>
    match skipWs cs with
    | [] => none
    | c :: rest =>
      if c = '{' then
        match skipWs rest with
        | '}' :: r => some (Json.obj [], r)
        | other => (parsePairs fuel other).map (fun (fs, r) => (Json.obj fs, r))
      else if c = '[' then
        match skipWs rest with
        | ']' :: r => some (Json.arr [], r)
        | other => (parseItems fuel other).map (fun (vs, r) => (Json.arr vs, r))
      else if c = '"' then
        (parseStringAux rest []).map (fun (s, r) => (Json.str s, r))
      else if c = 't' then
        if rest.take 3 = ['r', 'u', 'e'] then some (Json.bool true, rest.drop 3) else none
      else if c = 'f' then
        if rest.take 4 = ['a', 'l', 's', 'e'] then some (Json.bool false, rest.drop 4) else none
      else if c = 'n' then
        if rest.take 3 = ['u', 'l', 'l'] then some (Json.null, rest.drop 3) else none
      else
        (parseNumber (c :: rest)).map (fun (n, r) => (Json.num n, r))

/-- A nonempty `"key": value` member list up to the closing `}`. -/
def parsePairs : Nat → List Char → Option (List (String × Json) × List Char)
  | 0, _ => none
  | fuel + 1, cs =>
    match skipWs cs with
    | '"' :: rest =>
      match parseStringAux rest [] with
      | none => none
      | some (key, r1) =>
        match skipWs r1 with
        | ':' :: r2 =>
          match parseValue fuel r2 with
          | none => none
          | some (v, r3) =>
            match skipWs r3 with
            | ',' :: r4 => (parsePairs fuel r4).map (fun (fs, r) => ((key, v) :: fs, r))
            | '}' :: r4 => some ([(key, v)], r4)
            | _ => none
        | _ => none
    | _ => none

/-- A nonempty element list up to the closing `]`. -/
def parseItems : Nat → List Char → Option (List Json × List Char)
  | 0, _ => none
  | fuel + 1, cs =>
    match parseValue fuel cs with
    | none => none
    | some (v, r1) =>
      match skipWs r1 with
      | ',' :: r2 => (parseItems fuel r2).map (fun (vs, r) => (v :: vs, r))
      | ']' :: r2 => some ([v], r2)
      | _ => none

end

/-- `json.loads(s)`: one JSON value covering the whole input (up to
whitespace); `none` models the raised `JSONDecodeError`. -/
def jsonLoads (s : String) : Option Json :=
  match parseValue (s.toList.length + 1) s.toList with
  | some (v, rest) => if (skipWs rest).isEmpty then some v else none
  | none => none

/-- `FinancialAnalyzer._extract_json(text)`: strip, remove markdown code
fences, strip, and — only when the remaining text starts with `{` —
truncate at the balanced closing brace; finally `json.loads` the strip
of the result. -/
def extract_json (text : String) : Option Json :=
  let t1 := pyStrip text
  let t2 := stripCodeFences t1
  let t3 := pyStrip t2
  let t4 := if startsWithChar t3 '{' then braceTruncate t3 else t3
  jsonLoads (pyStrip t4)

/-- `DocumentExtractor._parse_json_response(text)`: strip, remove
markdown code fences, and `json.loads` the strip of the result (no
brace handling at all). -/
def parse_json_response (text : String) : Option Json :=
  jsonLoads (pyStrip (stripCodeFences (pyStrip text)))

/-! ## AnalysisAgent.analyze_query retry and throttle
(`backend/app/agents/analysis_agent.py`)

The Gemini endpoint is an oracle from the attempt number to either a
response (`some`) or a `ResourceExhausted` rate-limit error (`none`). -/

/-- Outcome of the `for attempt in range(max_retries)` loop: a response
together with the backoff waits performed, or the typed rate-limit exit
taken after the last attempt. -/
inductive RetryOutcome (ρ : Type) where
  | ok (resp : ρ) (waits : List Nat)
  | rateLimitExceeded (waits : List Nat)
deriving DecidableEq, Repr

/-- The retry loop of `AnalysisAgent.analyze_query`: try the call; on a
rate-limit error sleep `(2 ** attempt) * 3` seconds and retry while
`attempt < max_retries - 1`, otherwise return the typed rate-limit
result.  `fuel` bounds the recursion; the loop is entered with
`fuel = maxRetries ≥ maxRetries - attempt`, so the `fuel = 0` base is
never reached. -/
def retryGo {ρ : Type} (call : Nat → Option ρ) (maxRetries : Nat) :
    Nat → Nat → List Nat → RetryOutcome ρ
  | 0, _, waits => .rateLimitExceeded waits
  | fuel + 1, attempt, waits =>
    match call attempt with
    | some r => .ok r waits
    | none =>
      if attempt < maxRetries - 1 then
        retryGo call maxRetries fuel (attempt + 1) (waits ++ [2 ^ attempt * 3])
      else .rateLimitExceeded waits

/-- `for attempt in range(max_retries)` from attempt 0 with no waits
performed yet. -/
def retryLoop {ρ : Type} (call : Nat → Option ρ) (maxRetries : Nat) : RetryOutcome ρ :=
  retryGo call maxRetries maxRetries 0 []

/-- The degraded response dict returned by `analyze_query` when all
retries are exhausted. -/
structure AnalysisResponse where
  summary : String
  insights : List String
  error : Option String
deriving DecidableEq, Repr

/-- The literal rate-limit response of `analyze_query`. -/
def rateLimitResponse : AnalysisResponse :=
  { summary := "The AI service is currently experiencing high demand. Please wait a moment and try again.",
    insights := ["Rate limit exceeded - please try again in a few seconds"],
    error := some "Rate limit exceeded" }

/-- The first model call of `analyze_query`, with `max_retries = 3` as in
the source. -/
def analyzeQueryLLM {ρ : Type} (call : Nat → Option ρ) : RetryOutcome ρ :=
  retryLoop call 3

/-- `analyze_query`'s dispatch on that call: a degraded, well-formed
rate-limit response when retries were exhausted, the model response
otherwise — never a propagated exception. -/
def analyzeQueryOutcome {ρ : Type} (call : Nat → Option ρ) : Sum AnalysisResponse ρ :=
  match analyzeQueryLLM call with
  | .ok r _ => Sum.inr r
  | .rateLimitExceeded _ => Sum.inl rateLimitResponse

/-- The throttle at the top of `analyze_query` under a deterministic
clock: given the minimum inter-call interval, the recorded time of the
previous call and the request time of this one, the time at which the
call actually executes (after `time.sleep` when the interval has not yet
elapsed).  The executed time is also the new `last_request_time`. -/
def throttleExecTime (interval last now : ℚ) : ℚ :=
  if now - last < interval then now + (interval - (now - last)) else now

end FinanceFlow

namespace FinanceFlow

/-! ## Claim C1 — metric schema column list -/

/-- Claim C1 as written, at a concrete metric set: the schema built for
`M = [total_assets]` would have exactly the columns
`DOCUMENT_NAME, EXTRACTION_DATE, TOTAL_ASSETS`.  This is false: the code
also prepends a `METRIC_ID` primary-key column. -/
theorem c1_counterexample :
    ¬ ((create_metrics_schema ([] : List (String × Nat))
          [{ name := "total_assets", type := "float", description := "d" }]).tables.map
        (fun t => t.columns.map TableColumn.name)
      = [["DOCUMENT_NAME", "EXTRACTION_DATE", "TOTAL_ASSETS"]]) := by
  decide

/-- Claim C1 (amended): for every `SelectedMetricSet M`, the schema built
for `M` describes exactly one table whose column list is `METRIC_ID`
followed by the pair `DOCUMENT_NAME, EXTRACTION_DATE` followed by one
column per metric in `M`, named `upper(m.name)`, in `M`'s exact order,
with no other columns. -/
theorem c1_metrics_schema_columns {α : Type} (extracted : List (String × α))
    (metrics : List Metric) :
    (create_metrics_schema extracted metrics).tables.map
        (fun t => t.columns.map TableColumn.name)
      = [["METRIC_ID", "DOCUMENT_NAME", "EXTRACTION_DATE"]
          ++ metrics.map (fun m => pyUpper m.name)] := by
  simp [create_metrics_schema, metricsLeadColumns, metricColumn]

/-! ## Guarded-DDL lemmas for claims C2 and C6 -/

lemma nameMem_createTable_self (ws : List TableSchema) (t : TableSchema) :
    nameMem (createTableIfNotExists ws t) t.table_name = true := by
  unfold createTableIfNotExists
  split
  · assumption
  · simp [nameMem, List.any_append]

lemma nameMem_createTable_mono {ws : List TableSchema} {n : String}
    (h : nameMem ws n = true) (t : TableSchema) :
    nameMem (createTableIfNotExists ws t) n = true := by
  unfold createTableIfNotExists
  split
  · exact h
  · simp only [nameMem, List.any_append, Bool.or_eq_true]
    exact Or.inl h

lemma nameMem_foldl_mono {n : String} (ts : List TableSchema) :
    ∀ {ws : List TableSchema}, nameMem ws n = true →
      nameMem (ts.foldl createTableIfNotExists ws) n = true := by
  induction ts with
  | nil => intro ws h; exact h
  | cons t ts ih =>
    intro ws h
    exact ih (nameMem_createTable_mono h t)

lemma nameMem_foldl_of_mem {t : TableSchema} (ts : List TableSchema)
    (ht : t ∈ ts) :
    ∀ ws : List TableSchema,
      nameMem (ts.foldl createTableIfNotExists ws) t.table_name = true := by
  induction ts with
  | nil => cases ht
  | cons u ts ih =>
    intro ws
    rcases List.mem_cons.mp ht with h | h
    · subst h
      exact nameMem_foldl_mono ts (nameMem_createTable_self ws t)
    · exact ih h (createTableIfNotExists ws u)

lemma createTable_noop {ws : List TableSchema} {t : TableSchema}
    (h : nameMem ws t.table_name = true) : createTableIfNotExists ws t = ws := by
  unfold createTableIfNotExists
  simp only [nameMem] at h
  simp [h]

lemma foldl_create_noop (ts : List TableSchema) :
    ∀ ws : List TableSchema,
      (∀ t ∈ ts, nameMem ws t.table_name = true) →
      ts.foldl createTableIfNotExists ws = ws := by
  induction ts with
  | nil => intro ws _; rfl
  | cons t ts ih =>
    intro ws h
    have ht : createTableIfNotExists ws t = ws :=
      createTable_noop (h t (List.mem_cons_self t ts))
    rw [List.foldl_cons, ht]
    exact ih ws (fun u hu => h u (List.mem_cons_of_mem t hu))

lemma mem_foldl_create (ts : List TableSchema) :
    ∀ {ws : List TableSchema} {u : TableSchema},
      u ∈ ts.foldl createTableIfNotExists ws → u ∈ ws ∨ u ∈ ts := by
  induction ts with
  | nil => intro ws u h; exact Or.inl h
  | cons t ts ih =>
    intro ws u h
    rcases ih h with h' | h'
    · unfold createTableIfNotExists at h'
      split at h'
      · exact Or.inl h'
      · rcases List.mem_append.mp h' with h'' | h''
        · exact Or.inl h''
        · simp only [List.mem_singleton] at h''
          exact Or.inr (h'' ▸ List.mem_cons_self t ts)
    · exact Or.inr (List.mem_cons_of_mem t h')

/-! ## Claim C2 — idempotence of `create_schema_if_not_exists` -/

/-- Claim C2 as written is false on the reported count: calling
`create_schema_if_not_exists` twice with the metrics schema for one
metric raises no error, but the second call's `DeploymentResult` reports
`tables_created = 1` (it always reports `len(schema.tables)`), not zero
newly created tables. -/
theorem c2_counterexample :
    (create_schema_if_not_exists
        (create_schema_if_not_exists (⟨[], []⟩ : Warehouse Nat)
            (create_metrics_schema ([] : List (String × Nat))
              [{ name := "total_assets", type := "float", description := "d" }])).1
        (create_metrics_schema ([] : List (String × Nat))
          [{ name := "total_assets", type := "float", description := "d" }])).2.tables_created
      = 1 ∧ (1 : Nat) ≠ 0 := by
  constructor
  · rfl
  · decide

/-- Claim C2 (amended): calling `create_schema_if_not_exists` twice in
succession with the same `TableSchema` is a no-op on the warehouse the
second time — the second call raises no error and creates no table (the
warehouse state is unchanged) — but the `DeploymentResult` it returns
reports `tables_created = len(schema.tables)`, exactly as the first call
did, not zero. -/
theorem c2_create_schema_idempotent {α : Type} (w : Warehouse α)
    (schema : DatabaseSchema) :
    (create_schema_if_not_exists (create_schema_if_not_exists w schema).1 schema).1
        = (create_schema_if_not_exists w schema).1
      ∧ (create_schema_if_not_exists (create_schema_if_not_exists w schema).1 schema).2
        = (create_schema_if_not_exists w schema).2
      ∧ (create_schema_if_not_exists (create_schema_if_not_exists w schema).1 schema).2.tables_created
        = schema.tables.length := by
  have hmem : ∀ t ∈ schema.tables,
      nameMem (schema.tables.foldl createTableIfNotExists w.tables) t.table_name = true :=
    fun t ht => nameMem_foldl_of_mem schema.tables ht w.tables
  have hfold :
      schema.tables.foldl createTableIfNotExists
          (schema.tables.foldl createTableIfNotExists w.tables)
        = schema.tables.foldl createTableIfNotExists w.tables :=
    foldl_create_noop schema.tables _ hmem
  refine ⟨?_, rfl, rfl⟩
  simp only [create_schema_if_not_exists, hfold]

/-! ## The Step-2 insert loop of `deploy_metrics_node`, characterized -/

lemma gate_eq_not_extractionOk {α : Type} (extract : String → ExtractResult α)
    (p : String) :
    ((extract p).hasError || (extract p).extraction.isEmpty)
      = !(extractionOk extract p) := by
  unfold extractionOk
  cases h1 : (extract p).hasError <;>
    cases h2 : (extract p).extraction.isEmpty <;> simp [h1, h2]

/-- Running the Step-2 loop over a document list commits exactly one row
per document whose extraction succeeded (no error, nonempty map) and
whose insert succeeded, counts exactly those rows, records the
extraction of every document that passed the gate, and never touches the
table set. -/
lemma foldl_processDoc_spec {α : Type} (extract : String → ExtractResult α)
    (insertOk : String → Bool) (metrics : List Metric) (ps : List String) :
    ∀ (w : Warehouse α) (n : Nat) (b : List (String × List (String × α))),
      ps.foldl (processDoc extract insertOk metrics) (w, n, b)
        = (⟨w.tables,
            w.rows ++ (ps.filter
                (fun p => extractionOk extract p && insertOk p)).map
              (rowOf extract metrics)⟩,
           n + (ps.filter (fun p => extractionOk extract p && insertOk p)).length,
           b ++ (ps.filter (extractionOk extract)).map
              (fun p => (docNameOf p, (extract p).extraction))) := by
  induction ps with
  | nil => intro w n b; simp
  | cons p ps ih =>
    intro w n b
    rw [List.foldl_cons]
    by_cases hg : extractionOk extract p = true
    · have hgate : ((extract p).hasError || (extract p).extraction.isEmpty) = false := by
        rw [gate_eq_not_extractionOk, hg]; rfl
      by_cases hi : insertOk p = true
      · have hstep : processDoc extract insertOk metrics (w, n, b) p
            = (⟨w.tables, w.rows ++ [rowOf extract metrics p]⟩, n + 1,
               b ++ [(docNameOf p, (extract p).extraction)]) := by
          simp [processDoc, hgate, insert_metrics_row, hi, rowOf]
        rw [hstep, ih]
        simp [List.filter_cons, hg, hi, List.append_assoc, Nat.add_assoc, Nat.add_comm 1]
      · have hi' : insertOk p = false := by simpa using hi
        have hstep : processDoc extract insertOk metrics (w, n, b) p
            = (w, n, b ++ [(docNameOf p, (extract p).extraction)]) := by
          simp [processDoc, hgate, insert_metrics_row, hi']
        rw [hstep, ih]
        simp [List.filter_cons, hg, hi', List.append_assoc]
    · have hg' : extractionOk extract p = false := by simpa using hg
      have hgate : ((extract p).hasError || (extract p).extraction.isEmpty) = true := by
        rw [gate_eq_not_extractionOk, hg']; rfl
      have hstep : processDoc extract insertOk metrics (w, n, b) p = (w, n, b) := by
        simp [processDoc, hgate]
      rw [hstep, ih]
      simp [List.filter_cons, hg']

/-- Full unfolding of `deploy_metrics_node` on a batch whose first
document passes the extraction gate. -/
lemma deploy_metrics_node_cons_ok {α : Type} (extract : String → ExtractResult α)
    (insertOk : String → Bool) (w : Warehouse α) (p0 : String)
    (ps : List String) (metrics : List Metric)
    (h : extractionOk extract p0 = true) :
    deploy_metrics_node extract insertOk w (p0 :: ps) metrics
      = { warehouse :=
            ⟨(design_schema (extract p0).extraction metrics).tables.foldl
                createTableIfNotExists w.tables,
              w.rows ++ ((p0 :: ps).filter
                  (fun p => extractionOk extract p && insertOk p)).map
                (rowOf extract metrics)⟩,
          deployment_result :=
            some { tables_created :=
                     (design_schema (extract p0).extraction metrics).tables.length,
                   rows_loaded :=
                     ((p0 :: ps).filter
                        (fun p => extractionOk extract p && insertOk p)).length,
                   database := snowflakeDatabase,
                   schema := snowflakeSchema,
                   status := "success" },
          extracted_by_doc :=
            ((p0 :: ps).filter (extractionOk extract)).map
              (fun p => (docNameOf p, (extract p).extraction)) } := by
  have hgate : ((extract p0).hasError || (extract p0).extraction.isEmpty) = false := by
    rw [gate_eq_not_extractionOk, h]; rfl
  simp only [deploy_metrics_node, hgate, Bool.false_eq_true, if_false,
    create_schema_if_not_exists,
    foldl_processDoc_spec extract insertOk metrics (p0 :: ps)]
  simp

/-- When the first document's extraction gate fails, `deploy_metrics_node`
returns immediately without touching the warehouse. -/
lemma deploy_metrics_node_gate_fail {α : Type} (extract : String → ExtractResult α)
    (insertOk : String → Bool) (w : Warehouse α) (p0 : String)
    (ps : List String) (metrics : List Metric)
    (h : ((extract p0).hasError || (extract p0).extraction.isEmpty) = true) :
    deploy_metrics_node extract insertOk w (p0 :: ps) metrics
      = { warehouse := w, deployment_result := none, extracted_by_doc := [] } := by
  simp [deploy_metrics_node, h]

/-! ## Claim C10 — first-document failure short-circuits the deploy step -/

/-- Claim C10: in the process path, if metric extraction for the first
document fails (an `"error"` key) or yields an empty extraction map, the
deploy step returns with `deployment_result = None` and no extracted
metrics, without creating any schema and without attempting a row insert
for any document in the batch — the warehouse is left exactly as it was,
even for later documents whose extraction would succeed. -/
theorem c10_first_document_short_circuit {α : Type}
    (extract : String → ExtractResult α) (insertOk : String → Bool)
    (w : Warehouse α) (p0 : String) (ps : List String) (metrics : List Metric)
    (h : (extract p0).hasError = true ∨ (extract p0).extraction = []) :
    deploy_metrics_node extract insertOk w (p0 :: ps) metrics
      = { warehouse := w, deployment_result := none, extracted_by_doc := [] } := by
  have hgate : ((extract p0).hasError || (extract p0).extraction.isEmpty) = true := by
    rcases h with h | h
    · simp [h]
    · simp [h]
  simp [deploy_metrics_node, hgate]

/-- Witness for C10: a two-document batch where the first document's
extraction errors and the second would succeed; the deploy step returns
`None` and leaves the warehouse untouched. -/
theorem c10_witness :
    ((fun p => if p = "D1.md" then (⟨true, []⟩ : ExtractResult Nat)
               else ⟨false, [("total_assets", 100)]⟩) "D1.md").hasError = true
    ∧ deploy_metrics_node
        (fun p => if p = "D1.md" then (⟨true, []⟩ : ExtractResult Nat)
                  else ⟨false, [("total_assets", 100)]⟩)
        (fun _ => true) ⟨[], []⟩ ["D1.md", "D2.md"]
        [{ name := "total_assets", type := "float", description := "d" }]
      = { warehouse := ⟨[], []⟩, deployment_result := none, extracted_by_doc := [] } :=
  ⟨by decide,
   c10_first_document_short_circuit _ _ _ _ _ _ (Or.inl (by decide))⟩

/-! ## Claim C3 — document-level isolation in the process path -/

/-- Claim C3 as written is false at a concrete input: in the batch
`[D1, D2]` where `D1`'s extraction fails and `D2`'s extraction (and
insert) would succeed, `D2`'s row is never inserted — the first
document's failure aborts the whole deploy step, so a failure affecting
one document *does* block other documents' rows. -/
theorem c3_counterexample :
    extractionOk
        (fun p => if p = "D1.md" then (⟨true, []⟩ : ExtractResult Nat)
                  else ⟨false, [("total_assets", 100)]⟩) "D2.md" = true
    ∧ (deploy_metrics_node
        (fun p => if p = "D1.md" then (⟨true, []⟩ : ExtractResult Nat)
                  else ⟨false, [("total_assets", 100)]⟩)
        (fun _ => true) ⟨[], []⟩ ["D1.md", "D2.md"]
        [{ name := "total_assets", type := "float", description := "d" }]).warehouse.rows
      = []
    ∧ (deploy_metrics_node
        (fun p => if p = "D1.md" then (⟨true, []⟩ : ExtractResult Nat)
                  else ⟨false, [("total_assets", 100)]⟩)
        (fun _ => true) ⟨[], []⟩ ["D1.md", "D2.md"]
        [{ name := "total_assets", type := "float", description := "d" }]).deployment_result
      = none :=
  ⟨by decide, rfl, rfl⟩

/-- Claim C3 (amended): provided the *first* document of the batch passes
the extraction gate, document-level isolation holds: a failure affecting
any document (a failed or empty extraction, or a failed row insert) is
caught and merely skips that document — the committed rows are exactly
one row per document whose extraction and insert both succeeded, in
batch order, and `rows_loaded` counts exactly those rows.  In particular
if `D1`'s row is inserted and a later document's extraction fails,
`D1`'s row remains committed and counted.  (A failure of the first
document's extraction, however, aborts the deploy step for the whole
batch — see C10.) -/
theorem c3_document_isolation {α : Type} (extract : String → ExtractResult α)
    (insertOk : String → Bool) (w : Warehouse α) (p0 : String)
    (ps : List String) (metrics : List Metric)
    (h : extractionOk extract p0 = true) :
    (deploy_metrics_node extract insertOk w (p0 :: ps) metrics).warehouse.rows
        = w.rows ++ ((p0 :: ps).filter
            (fun p => extractionOk extract p && insertOk p)).map
          (rowOf extract metrics)
      ∧ (deploy_metrics_node extract insertOk w (p0 :: ps) metrics).deployment_result.map
            DeploymentResult.rows_loaded
        = some ((p0 :: ps).filter
            (fun p => extractionOk extract p && insertOk p)).length := by
  rw [deploy_metrics_node_cons_ok extract insertOk w p0 ps metrics h]
  exact ⟨rfl, rfl⟩

/-- Witness for C3: batch `[D1, D2]` with `D1` extracting and inserting
fine and `D2`'s extraction failing: `D1`'s row is committed and counted
(`rows_loaded = 1`). -/
theorem c3_witness :
    extractionOk
        (fun p => if p = "D2.md" then (⟨true, []⟩ : ExtractResult Nat)
                  else ⟨false, [("total_assets", 100)]⟩) "D1.md" = true
    ∧ (deploy_metrics_node
          (fun p => if p = "D2.md" then (⟨true, []⟩ : ExtractResult Nat)
                    else ⟨false, [("total_assets", 100)]⟩)
          (fun _ => true) ⟨[], []⟩ ["D1.md", "D2.md"]
          [{ name := "total_assets", type := "float", description := "d" }]).warehouse.rows
        = (⟨[], []⟩ : Warehouse Nat).rows
          ++ ((["D1.md", "D2.md"]).filter
              (fun p => extractionOk
                  (fun p => if p = "D2.md" then (⟨true, []⟩ : ExtractResult Nat)
                            else ⟨false, [("total_assets", 100)]⟩) p
                && (fun _ => true) p)).map
            (rowOf (fun p => if p = "D2.md" then (⟨true, []⟩ : ExtractResult Nat)
                             else ⟨false, [("total_assets", 100)]⟩)
              [{ name := "total_assets", type := "float", description := "d" }])
    ∧ (deploy_metrics_node
          (fun p => if p = "D2.md" then (⟨true, []⟩ : ExtractResult Nat)
                    else ⟨false, [("total_assets", 100)]⟩)
          (fun _ => true) ⟨[], []⟩ ["D1.md", "D2.md"]
          [{ name := "total_assets", type := "float", description := "d" }]).deployment_result.map
        DeploymentResult.rows_loaded
      = some ((["D1.md", "D2.md"]).filter
          (fun p => extractionOk
              (fun p => if p = "D2.md" then (⟨true, []⟩ : ExtractResult Nat)
                        else ⟨false, [("total_assets", 100)]⟩) p
            && (fun _ => true) p)).length := by
  refine ⟨by decide, ?_, ?_⟩
  · exact (c3_document_isolation _ _ _ _ _ _ (by decide)).1
  · exact (c3_document_isolation _ _ _ _ _ _ (by decide)).2

/-! ## Claim C4 — final status of a process-path batch -/

/-- Claim C4 as written is false at a concrete input: batch `[D1, D2]`
where both extractions succeed, `D1`'s insert succeeds and `D2`'s insert
fails.  Some but not all documents' rows were inserted
(`rows_loaded = 1` of 2 documents), yet the final status is `"success"`,
not `"partial"`, and the `DeploymentResult` records no count of failed
documents. -/
theorem c4_counterexample :
    (deploy_metrics_node
        (fun _ => (⟨false, [("total_assets", 100)]⟩ : ExtractResult Nat))
        (fun p => p != "D2.md") ⟨[], []⟩ ["D1.md", "D2.md"]
        [{ name := "total_assets", type := "float", description := "d" }]).deployment_result.map
        DeploymentResult.status
      = some "success"
    ∧ (deploy_metrics_node
        (fun _ => (⟨false, [("total_assets", 100)]⟩ : ExtractResult Nat))
        (fun p => p != "D2.md") ⟨[], []⟩ ["D1.md", "D2.md"]
        [{ name := "total_assets", type := "float", description := "d" }]).deployment_result.map
        DeploymentResult.rows_loaded
      = some 1
    ∧ (["D1.md", "D2.md"] : List String).length = 2
    ∧ ("success" : String) ≠ "partial" := by
  refine ⟨rfl, rfl, rfl, by decide⟩

/-- Claim C4 (amended): whenever the deploy step produces a
`DeploymentResult` at all (the first document passed the extraction
gate), its status is always `"success"`, regardless of how many
documents' inserts failed; `rows_loaded` is the number of documents
whose extraction and insert both succeeded; no count of failed documents
is recorded (`DeploymentResult` has no such field, and `"partial"` is
never produced by this path). -/
theorem c4_status_always_success {α : Type} (extract : String → ExtractResult α)
    (insertOk : String → Bool) (w : Warehouse α) (p0 : String)
    (ps : List String) (metrics : List Metric)
    (h : extractionOk extract p0 = true) :
    (deploy_metrics_node extract insertOk w (p0 :: ps) metrics).deployment_result.map
        DeploymentResult.status
      = some "success"
    ∧ (deploy_metrics_node extract insertOk w (p0 :: ps) metrics).deployment_result.map
        DeploymentResult.rows_loaded
      = some ((p0 :: ps).filter
          (fun p => extractionOk extract p && insertOk p)).length := by
  rw [deploy_metrics_node_cons_ok extract insertOk w p0 ps metrics h]
  exact ⟨rfl, rfl⟩

/-- Witness for C4: the two-document batch with one failed insert from
the counterexample, instantiating the amended theorem. -/
theorem c4_witness :
    extractionOk
        (fun _ => (⟨false, [("total_assets", 100)]⟩ : ExtractResult Nat)) "D1.md" = true
    ∧ (deploy_metrics_node
          (fun _ => (⟨false, [("total_assets", 100)]⟩ : ExtractResult Nat))
          (fun p => p != "D2.md") ⟨[], []⟩ ["D1.md", "D2.md"]
          [{ name := "total_assets", type := "float", description := "d" }]).deployment_result.map
        DeploymentResult.status
      = some "success" :=
  ⟨by decide,
   (c4_status_always_success
      (fun _ => (⟨false, [("total_assets", 100)]⟩ : ExtractResult Nat))
      (fun p => p != "D2.md") ⟨[], []⟩ "D1.md" ["D2.md"]
      [{ name := "total_assets", type := "float", description := "d" }] (by decide)).1⟩

/-! ## Claim C6 — empty metric set skips deployment; schema never narrower -/

/-- Claim C6: whenever the active `SelectedMetricSet` is empty, warehouse
deployment is skipped entirely — nothing is created or inserted and the
result is `None` — given the interface contract of the schema-driven
extraction service that the keys of any extraction map are drawn from
the requested metric names.  Moreover, unconditionally, the warehouse is
never given a schema narrower than the active set: any table the deploy
step adds to the warehouse carries a column `upper(m.name)` for every
metric `m` of the set. -/
theorem c6_empty_set_skips_deployment {α : Type} (extract : String → ExtractResult α)
    (insertOk : String → Bool) (w : Warehouse α) (paths : List String)
    (metrics : List Metric) :
    (metrics = [] →
        (∀ p, ((extract p).extraction).map Prod.fst ⊆ metrics.map Metric.name) →
        deploy_metrics_node extract insertOk w paths metrics
          = { warehouse := w, deployment_result := none, extracted_by_doc := [] })
      ∧ ∀ T ∈ (deploy_metrics_node extract insertOk w paths metrics).warehouse.tables,
          T ∉ w.tables → ∀ m ∈ metrics, pyUpper m.name ∈ T.columns.map TableColumn.name := by
  constructor
  · intro hm hk
    cases paths with
    | nil => rfl
    | cons p0 ps =>
      have h1 : ((extract p0).extraction).map Prod.fst = [] := by
        have hsub := hk p0
        rw [hm] at hsub
        exact List.subset_nil.mp (by simpa using hsub)
      have h2 : (extract p0).extraction = [] := List.map_eq_nil_iff.mp h1
      exact deploy_metrics_node_gate_fail extract insertOk w p0 ps metrics (by simp [h2])
  · intro T hT hTw m hm
    cases paths with
    | nil =>
      simp only [deploy_metrics_node] at hT
      exact absurd hT hTw
    | cons p0 ps =>
      by_cases hg : extractionOk extract p0 = true
      · rw [deploy_metrics_node_cons_ok extract insertOk w p0 ps metrics hg] at hT
        rcases mem_foldl_create _ hT with hmem | hmem
        · exact absurd hmem hTw
        · have hne : metrics ≠ [] := List.ne_nil_of_mem hm
          have hie : metrics.isEmpty = false := by
            cases metrics with
            | nil => exact absurd rfl hne
            | cons _ _ => rfl
          simp only [design_schema, hie, Bool.false_eq_true, if_false,
            create_metrics_schema, List.mem_singleton] at hmem
          rw [hmem]
          simp only [create_metrics_schema, metricsLeadColumns, metricColumn,
            List.map_append, List.map_map, List.mem_append]
          refine Or.inr ?_
          simpa using List.mem_map_of_mem (fun x => pyUpper x.name) hm
      · have hg' : extractionOk extract p0 = false := by simpa using hg
        have hgate : ((extract p0).hasError || (extract p0).extraction.isEmpty) = true := by
          rw [gate_eq_not_extractionOk, hg']; rfl
        rw [deploy_metrics_node_gate_fail extract insertOk w p0 ps metrics hgate] at hT
        exact absurd hT hTw

/-- Witness for C6: with an empty metric set and a schema-driven
extraction oracle (whose maps can only mention requested metric names),
the deploy step on a one-document batch is skipped entirely. -/
theorem c6_witness :
    deploy_metrics_node (fun _ => (⟨false, []⟩ : ExtractResult Nat))
        (fun _ => true) ⟨[], []⟩ ["D1.md"] []
      = { warehouse := ⟨[], []⟩, deployment_result := none, extracted_by_doc := [] } :=
  (c6_empty_set_skips_deployment (fun _ => (⟨false, []⟩ : ExtractResult Nat))
      (fun _ => true) ⟨[], []⟩ ["D1.md"] []).1 rfl (fun _ => by simp)

/-! ## Claim C5 — JSON extraction from free-form text -/

/-- Claim C5 as written is false at its own example: on
`'Here is your answer: {"a":1} thanks'` (no fence, prose before the
object) `_extract_json` does not scan to the first `{` — the brace
matching only runs when the stripped text *starts* with `{` — so the
whole text reaches `json.loads` and parsing fails (FormatError), instead
of yielding `{"a":1}`.  The extractor's `_parse_json_response` fails on
it too. -/
theorem c5_counterexample :
    extract_json "Here is your answer: \x7b\"a\":1\x7d thanks" = none
    ∧ parse_json_response "Here is your answer: \x7b\"a\":1\x7d thanks" = none :=
  ⟨rfl, rfl⟩

/-- Claim C5 (amended): for fenced input and for input that (after
stripping) starts with `{`, `_extract_json` behaves as specified — in
particular `'{"a":1} thanks'` (trailing prose) is truncated at the
balanced matching `}` by raw brace counting and parses to `{"a":1}` —
but there is no scan to the first `{`: when no fence marker is present
and the stripped text does not start with `{`, the entire text is handed
to the JSON parser, so an object preceded by prose raises FormatError
(parse failure, modelled as `none`). -/
theorem c5_json_extraction :
    extract_json "```json\n\x7b\"a\":1\x7d\n```" = some (Json.obj [("a", Json.num 1)])
    ∧ extract_json "\x7b\"a\":1\x7d" = some (Json.obj [("a", Json.num 1)])
    ∧ extract_json "\x7b\"a\":1\x7d thanks" = some (Json.obj [("a", Json.num 1)])
    ∧ parse_json_response "```json\n\x7b\"a\":1\x7d\n```" = some (Json.obj [("a", Json.num 1)])
    ∧ parse_json_response "\x7b\"a\":1\x7d" = some (Json.obj [("a", Json.num 1)])
    ∧ (∀ t : String,
        hasSub (pyStrip t) "```json" = false →
        hasSub (pyStrip t) "```" = false →
        startsWithChar (pyStrip (pyStrip t)) '{' = false →
        extract_json t = jsonLoads (pyStrip (pyStrip (pyStrip t)))) := by
  refine ⟨rfl, rfl, rfl, rfl, rfl, ?_⟩
  intro t h1 h2 h3
  simp [extract_json, stripCodeFences, h1, h2, h3]

/-- Witness for C5: the no-fence, leading-prose input instantiates the
universal clause — the whole stripped text goes to the parser. -/
theorem c5_witness :
    hasSub (pyStrip "Here is your answer: \x7b\"a\":1\x7d thanks") "```json" = false
    ∧ hasSub (pyStrip "Here is your answer: \x7b\"a\":1\x7d thanks") "```" = false
    ∧ startsWithChar (pyStrip (pyStrip "Here is your answer: \x7b\"a\":1\x7d thanks")) '{' = false
    ∧ extract_json "Here is your answer: \x7b\"a\":1\x7d thanks"
      = jsonLoads (pyStrip (pyStrip (pyStrip "Here is your answer: \x7b\"a\":1\x7d thanks"))) :=
  ⟨rfl, rfl, rfl,
   c5_json_extraction.2.2.2.2.2 "Here is your answer: \x7b\"a\":1\x7d thanks" rfl rfl rfl⟩

/-! ## Claim C7 — the per-document insert statement -/

/-- Claim C7 as written is false on case-insensitivity: with metric
`assets` and extracted map `{"ASSETS": 5}` — a key equal to the metric
name up to case — the built parameter row substitutes NULL, because the
source looks up only the exactly-lowercased metric name
(`extracted_metrics.get(name.lower())`) and never lowers the map's own
keys. -/
theorem c7_counterexample :
    (∃ kv ∈ [("ASSETS", (5 : Nat))], pyLower kv.1 = pyLower "assets")
    ∧ (insertRowParams [("ASSETS", (5 : Nat))]
        [{ name := "assets", type := "float", description := "" }] (some "doc")).2
      = [none] :=
  ⟨⟨("ASSETS", 5), List.mem_singleton.mpr rfl, by decide⟩, rfl⟩

/-- Claim C7 (amended): the insert statement's column list is exactly the
document-identifier column `DOCUMENT_NAME` followed by `upper(m.name)`
for each metric in order; for each metric the value is looked up in the
extracted-values map by the exactly-lowercased metric name (matching
only keys stored in lowercase, not case-insensitively), substituting
NULL exactly when that key is absent; and the call returns 1 on success
and 0 on a caught failure — never more than one row. -/
theorem c7_insert_statement {α : Type} (ok : Bool) (w : Warehouse α)
    (extracted : List (String × α)) (metrics : List Metric)
    (doc : Option String) :
    insertColumns metrics = "DOCUMENT_NAME" :: metrics.map (fun m => pyUpper m.name)
    ∧ (insertRowParams extracted metrics doc).2
      = metrics.map (fun m => lookupValue extracted (pyLower m.name))
    ∧ (insert_metrics_row ok w extracted metrics doc).2 = (if ok then 1 else 0)
    ∧ (insert_metrics_row ok w extracted metrics doc).2 ≤ 1
    ∧ (∀ key, lookupValue extracted key = none ↔ ∀ v : α, (key, v) ∉ extracted) := by
  refine ⟨rfl, rfl, ?_, ?_, ?_⟩
  · cases ok <;> rfl
  · cases ok <;> simp [insert_metrics_row]
  · intro key
    constructor
    · intro h v hv
      have hfind : extracted.find? (fun kv => kv.1 == key) = none := by
        simpa [lookupValue, Option.map_eq_none'] using h
      have := List.find?_eq_none.mp hfind (key, v) hv
      simp at this
    · intro h
      simp only [lookupValue, Option.map_eq_none', List.find?_eq_none]
      intro kv hkv
      simp only [beq_iff_eq]
      intro hk
      exact h kv.2 (by simpa [← hk] using hkv)

/-- Witness for C7 (the last clause quantifies with negations inside):
the amended theorem at a concrete input — at most one row inserted, and
the lookup-absence equivalence at the key `"assets"`. -/
theorem c7_witness :
    (insert_metrics_row true (⟨[], []⟩ : Warehouse Nat) [("ASSETS", (5 : Nat))]
        [{ name := "assets", type := "float", description := "" }] (some "doc")).2 ≤ 1
    ∧ (lookupValue [("ASSETS", (5 : Nat))] "assets" = none
        ↔ ∀ v : Nat, ("assets", v) ∉ [("ASSETS", (5 : Nat))]) :=
  ⟨(c7_insert_statement true (⟨[], []⟩ : Warehouse Nat)
      [("ASSETS", (5 : Nat))] [{ name := "assets", type := "float", description := "" }]
      (some "doc")).2.2.2.1,
   (c7_insert_statement true (⟨[], []⟩ : Warehouse Nat)
      [("ASSETS", (5 : Nat))] [{ name := "assets", type := "float", description := "" }]
      (some "doc")).2.2.2.2 "assets"⟩

/-! ## Claim C8 — rate-limit retry with exponential backoff -/

/-- Claim C8: on rate-limit errors from the inference endpoint the caller
makes up to 3 attempts total (attempts 0, 1, 2), waiting
`(2 ** attempt) * 3` seconds between attempts — 3s after attempt 0, 6s
after attempt 1 — and when all three attempts are rate-limited it
returns the typed, well-formed degraded rate-limit response instead of
propagating an exception. -/
theorem c8_rate_limit_retry {ρ : Type} (call : Nat → Option ρ)
    (h : ∀ a, a < 3 → call a = none) :
    analyzeQueryLLM call = .rateLimitExceeded [2 ^ 0 * 3, 2 ^ 1 * 3]
    ∧ analyzeQueryOutcome call = Sum.inl rateLimitResponse := by
  have h0 := h 0 (by omega)
  have h1 := h 1 (by omega)
  have h2 := h 2 (by omega)
  have hloop : analyzeQueryLLM call = .rateLimitExceeded [2 ^ 0 * 3, 2 ^ 1 * 3] := by
    simp [analyzeQueryLLM, retryLoop, retryGo, h0, h1, h2]
  exact ⟨hloop, by simp [analyzeQueryOutcome, hloop]⟩

/-- Witness for C8: the always-rate-limited endpoint exhausts the three
attempts and produces the typed degraded response. -/
theorem c8_witness :
    (∀ a : Nat, a < 3 → (fun _ => (none : Option String)) a = none)
    ∧ analyzeQueryOutcome (fun _ => (none : Option String)) = Sum.inl rateLimitResponse :=
  ⟨fun _ _ => rfl,
   (c8_rate_limit_retry (fun _ => (none : Option String)) (fun _ _ => rfl)).2⟩

/-! ## Claim C9 — minimum inter-call throttle -/

/-- Claim C9: with the 2.0s minimum inter-call interval and a
deterministic clock, if the first call executed at `t = 0` and the
second is requested at `t = 0.5`, the second call actually executes at
time `≥ 2.0`; in general a call requested before the interval has
elapsed sleeps until exactly `last + interval`. -/
theorem c9_throttle_min_interval :
    2 ≤ throttleExecTime 2 0 (1 / 2)
    ∧ (∀ last now : ℚ, last ≤ now → now - last < 2 →
        throttleExecTime 2 last now = last + 2) := by
  constructor
  · norm_num [throttleExecTime]
  · intro last now _ h2
    rw [throttleExecTime, if_pos h2]
    ring

/-- Witness for C9: the concrete `t = 0` / `t = 0.5` scenario of the
claim, through the general clause. -/
theorem c9_witness :
    ((0 : ℚ) ≤ 1 / 2 ∧ (1 / 2 : ℚ) - 0 < 2)
    ∧ throttleExecTime 2 0 (1 / 2) = 0 + 2 :=
  ⟨⟨by norm_num, by norm_num⟩,
   c9_throttle_min_interval.2 0 (1 / 2) (by norm_num) (by norm_num)⟩

end FinanceFlow
